import Mathlib

/-!
Verification of the FreshMart grocery bot (src/bot.py) against its
natural-language specification.

The development is a shallow embedding: the data structures of the Python
program (dicts, lists, numbers) are translated into Lean values, and each
side-effecting handler into a pure function from state to state plus a list
of outbound messages.  Conventions used throughout:

* Python `dict` values whose insertion order matters (the grocery catalog,
  a cart, the order ledger) become association lists `List (key × value)`;
  `d[k] = v` on an existing key is an in-place update (`List.map`), on a new
  key an append.  Dicts keyed by chat id whose order never matters
  (`user_carts`, `user_sessions`) become total functions with a default.
* Python `float` prices are modelled as exact rationals `ℚ`; the spec's
  claims are about the arithmetic formulas, not float rounding.
* Strings are Lean `String`; Python string slicing / `startswith` /
  `lower` operate on code points, so they are modelled by executable
  helpers over `String.data` (`pyDrop`, `pyStartsWith`, `pyLower`).
* Outbound Telegram messages are abstracted to their template identity
  (constructor of `MsgKind`) plus the data interpolated into them; the
  exact surface text is irrelevant to every claim except that the
  "❌ Unauthorized access." reply is a single fixed template, which the
  single constructor `MsgKind.unauthorized` captures.
-/

namespace FreshMart

/-! ## Python string helpers (code-point semantics) -/

/-- Model of Python `str.lower` for the ASCII letters (the only case the
program compares, namely against the literal `'none'`). -/
def pyCharLower (c : Char) : Char :=
  if 'A' ≤ c ∧ c ≤ 'Z' then Char.ofNat (c.toNat + 32) else c

/-- Model of Python `str.lower` applied to a whole string. -/
def pyLower (s : String) : String := ⟨s.data.map pyCharLower⟩

/-- Model of Python slicing `s[n:]` (by code points). -/
def pyDrop (s : String) (n : Nat) : String := ⟨s.data.drop n⟩

/-- Helper for `pyStartsWith`: the first list is a leading segment of the
second. -/
def listIsPre : List Char → List Char → Bool
  | [], _ => true
  | _ :: _, [] => false
  | a :: as, b :: bs => a = b && listIsPre as bs

/-- Model of Python `s.startswith(pre)`. -/
def pyStartsWith (s pre : String) : Bool := listIsPre pre.data s.data

/-! ## Data model -/

/-- Catalog entry: `{'price': ..., 'unit': ...}` in `grocery_categories`. -/
structure Item where
  price : ℚ
  unit : String
deriving DecidableEq

/-- The catalog `grocery_categories`: category name → item name → Item,
as an insertion-ordered association list. -/
abbrev Catalog := List (String × List (String × Item))

/-- One cart line: `{'price': ..., 'unit': ..., 'quantity': ...}`,
price and unit snapshotted from the catalog at add time. -/
structure CartLine where
  price : ℚ
  unit : String
  quantity : Nat
deriving DecidableEq

/-- A user's cart `user_carts[chat_id]`: item name → CartLine. -/
abbrev Cart := List (String × CartLine)

/-- The default catalog, lines 67-87 of src/bot.py. -/
def grocery_categories : Catalog :=
  [("🥦 Fresh Produce",
    [("🍎 Apples", ⟨3.99, "kg"⟩),
     ("🍌 Bananas", ⟨1.99, "kg"⟩),
     ("🥕 Carrots", ⟨2.49, "kg"⟩),
     ("🥬 Spinach", ⟨4.99, "bunch"⟩),
     ("🍅 Tomatoes", ⟨3.49, "kg"⟩)]),
   ("🥩 Meat & Poultry",
    [("🍗 Chicken Breast", ⟨12.99, "kg"⟩),
     ("🥩 Beef Steak", ⟨24.99, "kg"⟩),
     ("🐟 Salmon Fillet", ⟨18.99, "kg"⟩),
     ("🥓 Bacon", ⟨8.99, "pack"⟩)]),
   ("🥛 Dairy & Eggs",
    [("🥛 Milk", ⟨2.99, "liter"⟩),
     ("🧀 Cheese", ⟨6.99, "block"⟩),
     ("🍳 Eggs", ⟨4.99, "dozen"⟩),
     ("🧈 Butter", ⟨3.99, "block"⟩)])]

/-! ## Association list helper lemmas -/

theorem lookup_map_update_self {β : Type} (l : List (String × β)) (k : String)
    (f : β → β) :
    List.lookup k (l.map (fun p => if p.1 = k then (p.1, f p.2) else p)) =
      (List.lookup k l).map f := by
  induction l with
  | nil => rfl
  | cons hd tl ih =>
    obtain ⟨a, b⟩ := hd
    by_cases h : a = k
    · subst h
      have hmap : (if (a, b).1 = a then ((a, b).1, f (a, b).2) else (a, b))
          = (a, f b) := by simp
      rw [List.map_cons, hmap]
      simp [List.lookup, ih]
    · have hba : (k == a) = false := by
        simp only [beq_eq_false_iff_ne, ne_eq]
        exact fun e => h e.symm
      have hmap : (if (a, b).1 = k then ((a, b).1, f (a, b).2) else (a, b))
          = (a, b) := by simp [h]
      rw [List.map_cons, hmap]
      simp [List.lookup, hba, ih]

theorem lookup_map_update_ne {β : Type} (l : List (String × β)) (k q : String)
    (f : β → β) (h : q ≠ k) :
    List.lookup q (l.map (fun p => if p.1 = k then (p.1, f p.2) else p)) =
      List.lookup q l := by
  induction l with
  | nil => rfl
  | cons hd tl ih =>
    obtain ⟨a, b⟩ := hd
    by_cases hk : a = k
    · subst hk
      have hqa : (q == a) = false := by
        simp only [beq_eq_false_iff_ne, ne_eq]
        exact h
      have hmap : (if (a, b).1 = a then ((a, b).1, f (a, b).2) else (a, b))
          = (a, f b) := by simp
      rw [List.map_cons, hmap]
      simp [List.lookup, hqa, ih]
    · have hmap : (if (a, b).1 = k then ((a, b).1, f (a, b).2) else (a, b))
        = (a, b) := by simp [hk]
      rw [List.map_cons, hmap]
      by_cases hq : q = a
      · subst hq
        simp [List.lookup, ih]
      · have hqa : (q == a) = false := by
          simp only [beq_eq_false_iff_ne, ne_eq]
          exact hq
        simp [List.lookup, hqa, ih]

/-! ## Cart totals (claim C1)

Three places in the source compute subtotal / delivery fee / total:
`save_order_to_csv` (lines 275-277), `create_enhanced_order_summary`
(lines 756-758) and `show_cart` (lines 943-954). -/

/-- Sum `sum(details['price'] * details['quantity'] for details in cart.values())`
as written in `save_order_to_csv` and `create_enhanced_order_summary`. -/
def cart_subtotal (cart : Cart) : ℚ :=
  (cart.map (fun l => l.2.price * (l.2.quantity : ℚ))).sum

/-- The order row appended to orders.csv by `save_order_to_csv`
(lines 270-315), with fields kept typed rather than formatted. -/
structure CsvOrderRow where
  order_id : String
  chat_id : Int
  customer_name : String
  phone : String
  address : String
  items : List String
  quantities : List (Nat × String)
  subtotal : ℚ
  delivery_fee : ℚ
  total : ℚ
  status : String
  special_instructions : String
  payment_method : String
  source : String

/-- Embedding of `save_order_to_csv` (lines 270-315): computes
subtotal, delivery fee and total and assembles the persisted row. -/
def save_order_to_csv (chat_id : Int) (customer_name phone address : String)
    (cart : Cart) (special_instructions : String) (order_id : String) :
    CsvOrderRow :=
  let subtotal := cart_subtotal cart
  let delivery_fee : ℚ := if subtotal ≥ 50 then 0 else 5
  let total := subtotal + delivery_fee
  { order_id := order_id
    chat_id := chat_id
    customer_name := customer_name
    phone := phone
    address := address
    items := cart.map (·.1)
    quantities := cart.map (fun l => (l.2.quantity, l.2.unit))
    subtotal := subtotal
    delivery_fee := delivery_fee
    total := total
    status := "Pending"
    special_instructions := special_instructions
    payment_method := "Cash on Delivery"
    source := "Telegram Bot" }

/-- Embedding of the pricing part of `create_enhanced_order_summary`
(lines 753-786): returns (subtotal, delivery fee, total). -/
def create_enhanced_order_summary (cart : Cart) : ℚ × ℚ × ℚ :=
  let subtotal := cart_subtotal cart
  let delivery_fee : ℚ := if subtotal ≥ 50 then 0 else 5
  (subtotal, delivery_fee, subtotal + delivery_fee)

/-- Embedding of the totals computed by `show_cart` (lines 942-957), which
accumulates the subtotal with a running `total += item_total` loop. -/
def show_cart_totals (cart : Cart) : ℚ × ℚ × ℚ :=
  let total := cart.foldl (fun acc l => acc + l.2.price * (l.2.quantity : ℚ)) 0
  let delivery_fee : ℚ := if total ≥ 50 then 0 else 5
  (total, delivery_fee, total + delivery_fee)

theorem foldl_add_map_sum {α : Type} (f : α → ℚ) (l : List α) :
    ∀ a : ℚ, l.foldl (fun acc x => acc + f x) a = a + (l.map f).sum := by
  induction l with
  | nil => intro a; simp
  | cons hd tl ih => intro a; simp [ih, add_assoc]

/-! ## Cart mutation (claim C7): `handle_add_to_cart`, lines 901-922 -/

/-- Lookup of an item name across all categories, first category wins
(the `for category, items in grocery_categories.items(): ... break` loop
used in `handle_add_to_cart`, lines 902-906). -/
def find_item (catalog : Catalog) (item_name : String) : Option Item :=
  catalog.findSome? (fun c => List.lookup item_name c.2)

/-- Embedding of the cart mutation performed by `handle_add_to_cart`
(lines 901-922): unknown item leaves the cart untouched; an existing line
gets its quantity incremented in place; otherwise a new line with a
price/unit snapshot and quantity 1 is appended. -/
def handle_add_to_cart (catalog : Catalog) (cart : Cart) (item_name : String) :
    Cart :=
  match find_item catalog item_name with
  | none => cart
  | some item_details =>
    match List.lookup item_name cart with
    | some line =>
        cart.map (fun p =>
          if p.1 = item_name then
            (p.1, { line with quantity := line.quantity + 1 })
          else p)
    | none =>
        cart ++ [(item_name, ⟨item_details.price, item_details.unit, 1⟩)]

/-! ## Claim C1 -/

/-- C1: for every non-empty cart, the order created from it satisfies
total = subtotal + delivery fee with fee 0 when subtotal ≥ 50 and 5
otherwise, subtotal being the sum of snapshotted price times quantity over
the cart lines; and the identical formula is computed at all three sites:
order persistence (`save_order_to_csv`), order summary
(`create_enhanced_order_summary`) and cart view (`show_cart`). -/
theorem c1_total_formula (cart : Cart) (hne : cart ≠ []) (chat_id : Int)
    (customer_name phone address special_instructions order_id : String) :
    (save_order_to_csv chat_id customer_name phone address cart
        special_instructions order_id).total
      = (save_order_to_csv chat_id customer_name phone address cart
          special_instructions order_id).subtotal
        + (save_order_to_csv chat_id customer_name phone address cart
            special_instructions order_id).delivery_fee ∧
    (save_order_to_csv chat_id customer_name phone address cart
        special_instructions order_id).delivery_fee
      = (if cart_subtotal cart ≥ 50 then (0 : ℚ) else 5) ∧
    (save_order_to_csv chat_id customer_name phone address cart
        special_instructions order_id).subtotal
      = (cart.map (fun l => l.2.price * (l.2.quantity : ℚ))).sum ∧
    create_enhanced_order_summary cart
      = ((save_order_to_csv chat_id customer_name phone address cart
            special_instructions order_id).subtotal,
         (save_order_to_csv chat_id customer_name phone address cart
            special_instructions order_id).delivery_fee,
         (save_order_to_csv chat_id customer_name phone address cart
            special_instructions order_id).total) ∧
    show_cart_totals cart
      = ((save_order_to_csv chat_id customer_name phone address cart
            special_instructions order_id).subtotal,
         (save_order_to_csv chat_id customer_name phone address cart
            special_instructions order_id).delivery_fee,
         (save_order_to_csv chat_id customer_name phone address cart
            special_instructions order_id).total) := by
  have hs : cart.foldl (fun acc l => acc + l.2.price * (l.2.quantity : ℚ)) 0
      = cart_subtotal cart := by
    rw [foldl_add_map_sum (fun l => l.2.price * (l.2.quantity : ℚ)) cart 0,
      zero_add]
    rfl
  refine ⟨rfl, rfl, rfl, rfl, ?_⟩
  simp only [show_cart_totals, save_order_to_csv, hs]

/-- Witness for C1 at the cart holding two kilograms of apples. -/
theorem c1_total_formula_witness :
    ([("🍎 Apples", (⟨3.99, "kg", 2⟩ : CartLine))] : Cart) ≠ [] ∧
    (save_order_to_csv 7 "Alice" "0300-1234567" "12 Elm St"
        [("🍎 Apples", ⟨3.99, "kg", 2⟩)] "" "ORD1700000000").total
      = (save_order_to_csv 7 "Alice" "0300-1234567" "12 Elm St"
          [("🍎 Apples", ⟨3.99, "kg", 2⟩)] "" "ORD1700000000").subtotal
        + (save_order_to_csv 7 "Alice" "0300-1234567" "12 Elm St"
            [("🍎 Apples", ⟨3.99, "kg", 2⟩)] "" "ORD1700000000").delivery_fee :=
  ⟨by simp,
   (c1_total_formula [("🍎 Apples", ⟨3.99, "kg", 2⟩)] (by simp) 7 "Alice"
      "0300-1234567" "12 Elm St" "" "ORD1700000000").1⟩

/-! ## Claim C7 -/

/-- C7: adding an item that is already a cart line increments that line's
quantity by one, creates no new line and preserves the snapshotted price
and unit; adding an item present in the catalog but not in the cart
appends exactly one line with quantity 1 snapshotting the catalog price
and unit; an unknown name leaves the cart unchanged; and adding the same
item twice starting from the empty cart yields one line with quantity 2. -/
theorem c7_add_to_cart_spec (catalog : Catalog) (cart : Cart)
    (item_name : String) :
    (find_item catalog item_name = none →
        handle_add_to_cart catalog cart item_name = cart) ∧
    (∀ item_details, find_item catalog item_name = some item_details →
      (List.lookup item_name cart = none →
          handle_add_to_cart catalog cart item_name
            = cart ++ [(item_name, ⟨item_details.price, item_details.unit, 1⟩)]) ∧
      (∀ line, List.lookup item_name cart = some line →
          (handle_add_to_cart catalog cart item_name).length = cart.length ∧
          List.lookup item_name (handle_add_to_cart catalog cart item_name)
            = some { line with quantity := line.quantity + 1 } ∧
          (∀ k, k ≠ item_name →
              List.lookup k (handle_add_to_cart catalog cart item_name)
                = List.lookup k cart)) ∧
      handle_add_to_cart catalog (handle_add_to_cart catalog [] item_name)
          item_name
        = [(item_name, ⟨item_details.price, item_details.unit, 2⟩)]) := by
  refine ⟨fun h => by simp [handle_add_to_cart, h], ?_⟩
  intro item_details hit
  refine ⟨fun hnone => by simp [handle_add_to_cart, hit, hnone], ?_, ?_⟩
  · intro line hline
    refine ⟨by simp [handle_add_to_cart, hit, hline], ?_, ?_⟩
    · have h2 := lookup_map_update_self cart item_name
        (fun _ => { line with quantity := line.quantity + 1 })
      simp only [handle_add_to_cart, hit, hline]
      simpa [hline] using h2
    · intro k hk
      have h2 := lookup_map_update_ne cart item_name k
        (fun _ => { line with quantity := line.quantity + 1 }) hk
      simp only [handle_add_to_cart, hit, hline]
      simpa using h2
  · simp [handle_add_to_cart, hit, List.lookup]

/-- Witness for C7: adding apples twice from the empty cart against the
default catalog yields a single line of quantity 2. -/
theorem c7_add_to_cart_spec_witness :
    find_item grocery_categories "🍎 Apples" = some ⟨3.99, "kg"⟩ ∧
    handle_add_to_cart grocery_categories
        (handle_add_to_cart grocery_categories [] "🍎 Apples") "🍎 Apples"
      = [("🍎 Apples", ⟨3.99, "kg", 2⟩)] :=
  ⟨rfl,
   ((c7_add_to_cart_spec grocery_categories [] "🍎 Apples").2
      ⟨3.99, "kg"⟩ rfl).2.2⟩

/-! ## Sessions, orders and messages -/

/-- Session field bag `user_sessions[chat_id]`: the `step` tag plus every
step-scoped field the source ever stores, all optional (Python dicts simply
lack absent keys). -/
structure Session where
  step : Option String := none
  order_id : Option String := none
  editing_item : Option String := none
  item_category : Option String := none
  new_item_category : Option String := none
  new_item_name : Option String := none
  new_item_price : Option ℚ := none
  customer_name : Option String := none
  phone : Option String := none
  address : Option String := none
  current_category : Option String := none

/-- One entry of `order_tracking` as written by `save_order_tracking`
(lines 183-196).  Timestamps are modelled as abstract instants (`Nat`)
instead of formatted datetime strings. -/
structure Order where
  chat_id : Int
  customer_name : String
  phone : String
  address : String
  cart : Cart
  total : ℚ
  status : String
  created_at : Nat
  updated_at : Nat

/-- The in-memory order ledger `order_tracking`, an insertion-ordered dict
keyed by order id. -/
abbrev Orders := List (String × Order)

/-- Outbound messages abstracted to their template identity plus the data
interpolated into them.  `unauthorized` is the fixed
"❌ Unauthorized access." reply. -/
inductive MsgKind
  | unauthorized
  | added_to_cart (item : String)
  | item_not_found_menu
  | item_not_found_admin
  | back_categories
  | view_cart
  | shipped_ok (oid : String)
  | delivered_ok (oid : String)
  | order_not_found (oid : String)
  | cancel_reason_prompt (oid : String)
  | order_details (oid : String)
  | customer_status_notice (oid newStatus : String)
  | price_update_prompt (item : String)
  | new_item_name_prompt (cat : String)
  | remove_item_list (cat : String)
  | category_not_found
  | no_items_in_category (cat : String)
  | item_removed (item cat : String)
  | admin_panel_menu
  | download_doc (which : String)
  | unknown_action
  | invalid_price_number
  | session_expired
  | unit_prompt (item : String)
deriving DecidableEq

/-- Python dict assignment `d[k] = v`: in-place update when the key exists,
append otherwise. -/
def dict_insert {β : Type} (l : List (String × β)) (k : String) (v : β) :
    List (String × β) :=
  if (List.lookup k l).isSome then
    l.map (fun p => if p.1 = k then (p.1, v) else p)
  else l ++ [(k, v)]

/-! ## Admin identity (claim C9): `is_admin`, lines 465-467 -/

/-- Embedding of `is_admin`: `ADMIN_CHAT_ID and str(chat_id) == ADMIN_CHAT_ID`.
`adminId` is the environment variable `ADMIN_CHAT_ID` (`none` when unset);
an empty string is falsy in Python, so it also fails the check. -/
def is_admin (adminId : Option String) (chat_id : Int) : Bool :=
  match adminId with
  | none => false
  | some a => if a = "" then false else decide (toString chat_id = a)

/-! ## Order id generation (claim C4): `generate_order_id`, lines 179-181 -/

/-- Embedding of `generate_order_id`: the string `ORD{int(time.time())}`,
where `t` is the wall-clock second of creation. -/
def generate_order_id (t : Nat) : String := "ORD" ++ Nat.repr t

/-- Embedding of `save_order_tracking` (lines 183-196): stores the order
under its id in `order_tracking` with status Pending and both timestamps
set to the creation instant. -/
def save_order_tracking (orders : Orders) (order_id : String) (chat_id : Int)
    (customer_name phone address : String) (cart : Cart) (total : ℚ)
    (now : Nat) : Orders :=
  dict_insert orders order_id
    { chat_id := chat_id
      customer_name := customer_name
      phone := phone
      address := address
      cart := cart
      total := total
      status := "Pending"
      created_at := now
      updated_at := now }

/-! ## Decimal representation of naturals

`Nat.repr` has no injectivity lemma in the library; we prove one by
relating `Nat.toDigitsCore` to a structurally recursive digit expansion
and giving the expansion a left inverse. -/

/-- Structural recursion computing the decimal digit characters of `n`,
most significant first. -/
def decChars (n : Nat) : List Char :=
  if h : n < 10 then [Nat.digitChar n]
  else
    have : n / 10 < n := Nat.div_lt_self (by omega) (by omega)
    decChars (n / 10) ++ [Nat.digitChar (n % 10)]
termination_by n

theorem toDigitsCore_eq_decChars :
    ∀ (f n : Nat) (acc : List Char), n < f →
      Nat.toDigitsCore 10 f n acc = decChars n ++ acc := by
  intro f
  induction f with
  | zero => intro n acc h; omega
  | succ f ih =>
    intro n acc h
    by_cases h10 : n < 10
    · have hdiv : n / 10 = 0 := Nat.div_eq_of_lt h10
      have hmod : n % 10 = n := Nat.mod_eq_of_lt h10
      simp [Nat.toDigitsCore, hdiv, hmod, decChars, h10]
    · have hdiv : ¬ n / 10 = 0 := by
        have h1 : 1 ≤ n / 10 := (Nat.le_div_iff_mul_le (by omega)).mpr (by omega)
        omega
      have hlt : n / 10 < f := by
        have h1 : n / 10 < n := Nat.div_lt_self (by omega) (by omega)
        omega
      rw [show Nat.toDigitsCore 10 (f + 1) n acc
            = Nat.toDigitsCore 10 f (n / 10) (Nat.digitChar (n % 10) :: acc)
          from by simp [Nat.toDigitsCore, hdiv]]
      rw [ih (n / 10) (Nat.digitChar (n % 10) :: acc) hlt]
      conv_rhs => rw [decChars]
      simp [h10]

theorem toDigits_eq_decChars (n : Nat) : Nat.toDigits 10 n = decChars n := by
  have := toDigitsCore_eq_decChars (n + 1) n [] (by omega)
  simpa [Nat.toDigits] using this

/-- Decimal value of a digit-character list, the left inverse of
`decChars`. -/
def digitsVal (l : List Char) : Nat :=
  l.foldl (fun a c => 10 * a + (c.toNat - 48)) 0

theorem digitsVal_gen (l : List Char) (c : Char) (a : Nat) :
    (l ++ [c]).foldl (fun a c => 10 * a + (c.toNat - 48)) a
      = 10 * (l.foldl (fun a c => 10 * a + (c.toNat - 48)) a) + (c.toNat - 48) := by
  simp [List.foldl_append]

theorem digitChar_toNat (d : Nat) (h : d < 10) :
    (Nat.digitChar d).toNat - 48 = d := by
  revert h
  revert d
  decide

theorem digitsVal_decChars (n : Nat) : digitsVal (decChars n) = n := by
  induction n using Nat.strong_induction_on with
  | _ n ih =>
    by_cases h10 : n < 10
    · rw [decChars]
      simp [h10, digitsVal, digitChar_toNat n h10]
    · rw [decChars]
      simp only [h10, dite_false]
      unfold digitsVal
      rw [digitsVal_gen]
      have hdiv : n / 10 < n := Nat.div_lt_self (by omega) (by omega)
      have hmod : n % 10 < 10 := Nat.mod_lt _ (by omega)
      rw [digitChar_toNat _ hmod]
      have := ih (n / 10) hdiv
      unfold digitsVal at this
      rw [this]
      omega

theorem decChars_injective : Function.Injective decChars := by
  intro a b h
  have := congrArg digitsVal h
  simpa [digitsVal_decChars] using this

theorem natRepr_injective : Function.Injective Nat.repr := by
  intro a b h
  apply decChars_injective
  have hd := congrArg String.data h
  simpa [Nat.repr, List.asString, toDigits_eq_decChars] using hd

/-! ## Order status updates (claim C6): `update_order_status`, lines 198-215 -/

/-- Embedding of `update_order_status`: unknown id returns failure and
leaves the ledger alone; otherwise the entry's status and `updated_at` are
mutated in place, and the owning user is notified when the new status has
a message template (`Shipped`, `Cancelled`, `Delivered`).  The result is
(return value, new ledger, messages sent). -/
def update_order_status (now : Nat) (orders : Orders) (order_id : String)
    (new_status : String) : Bool × Orders × List (Int × MsgKind) :=
  match List.lookup order_id orders with
  | none => (false, orders, [])
  | some o =>
      (true,
       orders.map (fun p =>
         if p.1 = order_id then
           (p.1, { p.2 with status := new_status, updated_at := now })
         else p),
       if new_status = "Shipped" ∨ new_status = "Cancelled"
           ∨ new_status = "Delivered" then
         [(o.chat_id, MsgKind.customer_status_notice order_id new_status)]
       else [])

/-- C6: updating the status of an order id absent from the ledger returns
failure and leaves the entire ledger unchanged; on a present id it returns
success, sets that order's status to the new value, refreshes its
`updated_at` timestamp to the current instant, never changes `created_at`,
and leaves every other order untouched. -/
theorem c6_update_status_spec (now : Nat) (orders : Orders)
    (order_id new_status : String) :
    (List.lookup order_id orders = none →
        update_order_status now orders order_id new_status
          = (false, orders, [])) ∧
    (∀ o, List.lookup order_id orders = some o →
        (update_order_status now orders order_id new_status).1 = true ∧
        List.lookup order_id
            (update_order_status now orders order_id new_status).2.1
          = some { o with status := new_status, updated_at := now } ∧
        (∀ o2, List.lookup order_id
              (update_order_status now orders order_id new_status).2.1
            = some o2 →
          o2.created_at = o.created_at ∧ o2.updated_at = now ∧
          o2.status = new_status) ∧
        (∀ q, q ≠ order_id →
            List.lookup q (update_order_status now orders order_id new_status).2.1
              = List.lookup q orders)) := by
  refine ⟨fun h => by simp [update_order_status, h], ?_⟩
  intro o ho
  have hself := lookup_map_update_self orders order_id
    (fun r => { r with status := new_status, updated_at := now })
  have hlook : List.lookup order_id
      (update_order_status now orders order_id new_status).2.1
      = some { o with status := new_status, updated_at := now } := by
    simp only [update_order_status, ho]
    simpa [ho] using hself
  refine ⟨by simp [update_order_status, ho], hlook, ?_, ?_⟩
  · intro o2 h2
    rw [hlook] at h2
    obtain rfl : ({ o with status := new_status, updated_at := now } : Order)
        = o2 := by
      exact Option.some.inj h2
    exact ⟨rfl, rfl, rfl⟩
  · intro q hq
    have hne := lookup_map_update_ne orders order_id q
      (fun r => { r with status := new_status, updated_at := now }) hq
    simp only [update_order_status, ho]
    simpa using hne

/-- Witness for C6 on a one-order ledger shipped at instant 9. -/
theorem c6_update_status_spec_witness :
    List.lookup "ORD1700000000"
        [("ORD1700000000",
          (⟨1, "Alice", "111", "addr", [], 5, "Pending", 3, 3⟩ : Order))]
      = some ⟨1, "Alice", "111", "addr", [], 5, "Pending", 3, 3⟩ ∧
    List.lookup "ORD1700000000"
        (update_order_status 9
          [("ORD1700000000", ⟨1, "Alice", "111", "addr", [], 5, "Pending", 3, 3⟩)]
          "ORD1700000000" "Shipped").2.1
      = some ⟨1, "Alice", "111", "addr", [], 5, "Shipped", 3, 9⟩ :=
  ⟨rfl,
   ((c6_update_status_spec 9
      [("ORD1700000000", ⟨1, "Alice", "111", "addr", [], 5, "Pending", 3, 3⟩)]
      "ORD1700000000" "Shipped").2
      ⟨1, "Alice", "111", "addr", [], 5, "Pending", 3, 3⟩ rfl).2.1⟩

/-! ## Claim C4 -/

/-- C4 counterexample: `generate_order_id` depends only on the wall-clock
second, so two orders created within the same second receive the identical
id, and saving the second into `order_tracking` overwrites the first: the
ledger ends with a single entry holding the later customer. -/
theorem c4_same_second_collision :
    generate_order_id 1700000000 = generate_order_id 1700000000 ∧
    (save_order_tracking
        (save_order_tracking [] (generate_order_id 1700000000) 1 "Alice"
          "111" "addr A" [] 5 0)
        (generate_order_id 1700000000) 2 "Bob" "222" "addr B" [] 5 0).length
      = 1 ∧
    (List.lookup (generate_order_id 1700000000)
        (save_order_tracking
          (save_order_tracking [] (generate_order_id 1700000000) 1 "Alice"
            "111" "addr A" [] 5 0)
          (generate_order_id 1700000000) 2 "Bob" "222" "addr B" [] 5 0)).map
        Order.customer_name
      = some "Bob" :=
  ⟨rfl, rfl, rfl⟩

/-- C4 amended: order ids are injective in the creation second — ids of
orders created at distinct integer seconds differ, and ids of orders
created within the same second coincide. -/
theorem c4_order_id_injective (t1 t2 : Nat) :
    generate_order_id t1 = generate_order_id t2 ↔ t1 = t2 := by
  constructor
  · intro h
    apply natRepr_injective
    have hd := congrArg String.data h
    simp only [generate_order_id, String.data_append] at hd
    exact String.ext (List.append_cancel_left hd)
  · rintro rfl
    rfl

/-! ## Claim C10 -/

/-- The conversion applied by `handle_message` in step
`awaiting_instructions` (line 1214):
`special_instructions = text if text.lower() != 'none' else ""`. -/
def awaiting_instructions_text (text : String) : String :=
  if pyLower text ≠ "none" then text else ""

/-- C10: a user replying to the special-instructions prompt with any
casing of the word none gets an order with empty special instructions;
any other text is stored verbatim in the created order row. -/
theorem c10_instructions_none (text : String) (chat_id : Int)
    (customer_name phone address order_id : String) (cart : Cart) :
    (pyLower text = "none" →
        (save_order_to_csv chat_id customer_name phone address cart
            (awaiting_instructions_text text) order_id).special_instructions
          = "") ∧
    (pyLower text ≠ "none" →
        (save_order_to_csv chat_id customer_name phone address cart
            (awaiting_instructions_text text) order_id).special_instructions
          = text) := by
  constructor <;> intro h <;>
    simp [save_order_to_csv, awaiting_instructions_text, h]

/-- Witness for C10 at the mixed-case input NoNe. -/
theorem c10_instructions_none_witness :
    pyLower "NoNe" = "none" ∧
    (save_order_to_csv 7 "Alice" "111" "addr" []
        (awaiting_instructions_text "NoNe") "ORD1").special_instructions
      = "" :=
  ⟨rfl, (c10_instructions_none "NoNe" 7 "Alice" "111" "addr" "ORD1" []).1 rfl⟩

/-! ## Plain-text dispatch (claim C2): `handle_message`, lines 1109-1367

The elif chain of `handle_message` is modelled as a pure routing function
returning which branch fires.  The branch order is exactly the source
order; in particular every menu-label comparison up to the admin commands
is tested BEFORE the session-step continuations. -/

/-- Target branch of the `handle_message` elif chain. -/
inductive Route
  | start
  | shop
  | my_cart
  | track_order
  | main_menu
  | continue_shopping
  | add_more
  | clear_cart
  | checkout
  | category (name : String)
  | admin_panel
  | admin_view_items
  | admin_update_price
  | admin_new_item
  | admin_remove_item
  | admin_view_orders
  | admin_download
  | admin_refresh
  | continuation (step : String)
  | contact_store
  | store_info
  | fallback_start
deriving DecidableEq

/-- Routing function of `handle_message`: `adm` is `is_admin(chat_id)`,
`cats` the current catalog category names, `stp` the user's session step
(`user_sessions.get(chat_id, {}).get('step')`). -/
def handle_message_route (adm : Bool) (cats : List String)
    (stp : Option String) (text : String) : Route :=
  if text = "/start" then .start
  else if text = "🛍️ Shop Groceries" then .shop
  else if text = "🛒 My Cart" then .my_cart
  else if text = "📦 Track Order" then .track_order
  else if text = "🔙 Main Menu" then .main_menu
  else if text = "📋 Continue Shopping" then .continue_shopping
  else if text = "➕ Add More Items" then .add_more
  else if text = "🗑️ Clear Cart" then .clear_cart
  else if text = "🚚 Checkout Now" ∨ text = "🚚 Checkout" then .checkout
  else if text ∈ cats then .category text
  else if text = "/admin" ∨ text = "👨‍💼 Admin Panel" then .admin_panel
  else if text = "📊 View All Items" ∧ adm = true then .admin_view_items
  else if text = "💰 Update Price" ∧ adm = true then .admin_update_price
  else if text = "🆕 Add New Item" ∧ adm = true then .admin_new_item
  else if text = "🗑️ Remove Item" ∧ adm = true then .admin_remove_item
  else if text = "📦 View Orders" ∧ adm = true then .admin_view_orders
  else if text = "📥 Download Data" ∧ adm = true then .admin_download
  else if text = "🔄 Refresh Menu" ∧ adm = true then .admin_refresh
  else if stp = some "awaiting_name" then .continuation "awaiting_name"
  else if stp = some "awaiting_phone" then .continuation "awaiting_phone"
  else if stp = some "awaiting_address" then .continuation "awaiting_address"
  else if stp = some "awaiting_instructions" then
    .continuation "awaiting_instructions"
  else if stp = some "awaiting_cancel_reason" then
    .continuation "awaiting_cancel_reason"
  else if stp = some "awaiting_new_price" then
    .continuation "awaiting_new_price"
  else if stp = some "awaiting_new_item_name" then
    .continuation "awaiting_new_item_name"
  else if stp = some "awaiting_new_item_price" then
    .continuation "awaiting_new_item_price"
  else if stp = some "awaiting_new_item_unit" then
    .continuation "awaiting_new_item_unit"
  else if text = "📞 Contact Store" then .contact_store
  else if text = "ℹ️ Store Info" then .store_info
  else .fallback_start

/-- The free-text-continuation steps named by the spec. -/
def continuation_steps : List String :=
  ["awaiting_name", "awaiting_phone", "awaiting_address",
   "awaiting_instructions", "awaiting_cancel_reason", "awaiting_new_price",
   "awaiting_new_item_name", "awaiting_new_item_price",
   "awaiting_new_item_unit"]

/-- Texts captured by a `handle_message` branch tested before the
session-step continuations (given admin status and category names). -/
def menu_before_sessions (adm : Bool) (cats : List String) (text : String) :
    Prop :=
  text ∈ (["/start", "🛍️ Shop Groceries", "🛒 My Cart", "📦 Track Order",
    "🔙 Main Menu", "📋 Continue Shopping", "➕ Add More Items",
    "🗑️ Clear Cart", "🚚 Checkout Now", "🚚 Checkout", "/admin",
    "👨‍💼 Admin Panel"] : List String) ∨
  text ∈ cats ∨
  (adm = true ∧ text ∈ (["📊 View All Items", "💰 Update Price",
    "🆕 Add New Item", "🗑️ Remove Item", "📦 View Orders", "📥 Download Data",
    "🔄 Refresh Menu"] : List String))

instance menu_before_sessions_dec (adm : Bool) (cats : List String)
    (text : String) : Decidable (menu_before_sessions adm cats text) := by
  unfold menu_before_sessions
  infer_instance

/-- C2 counterexample: a user whose session step is `awaiting_phone` who
sends the menu label `/start` (or `🛒 My Cart`) is routed to the matching
menu branch, not to the phone continuation handler, because the menu
comparisons precede the session-step checks in the elif chain. -/
theorem c2_menu_precedence_counterexample :
    handle_message_route false (grocery_categories.map Prod.fst)
        (some "awaiting_phone") "/start" = Route.start ∧
    handle_message_route false (grocery_categories.map Prod.fst)
        (some "awaiting_phone") "🛒 My Cart" = Route.my_cart ∧
    Route.start ≠ Route.continuation "awaiting_phone" ∧
    Route.my_cart ≠ Route.continuation "awaiting_phone" :=
  ⟨rfl, rfl, by decide, by decide⟩

/-- C2 amended: a user in a free-text-continuation step is routed to the
matching continuation handler exactly when the text matches none of the
menu branches tested earlier in the chain (the fixed menu labels, a
category name, or — for an admin caller — an admin menu label); a text
equal to such an earlier menu label is reinterpreted as that menu command
instead. -/
theorem c2_continuation_routing (adm : Bool) (cats : List String)
    (step : String) (text : String) (hstep : step ∈ continuation_steps)
    (hmenu : ¬ menu_before_sessions adm cats text) :
    handle_message_route adm cats (some step) text
      = Route.continuation step := by
  simp only [continuation_steps, List.mem_cons, List.not_mem_nil,
    or_false] at hstep
  simp only [menu_before_sessions, List.mem_cons, List.not_mem_nil, or_false,
    not_or] at hmenu
  obtain ⟨h1, h2, h3⟩ := hmenu
  obtain ⟨e1, e2, e3, e4, e5, e6, e7, e8, e9, e10, e11, e12⟩ := h1
  cases adm with
  | false =>
    rcases hstep with rfl | rfl | rfl | rfl | rfl | rfl | rfl | rfl | rfl <;>
      simp [handle_message_route, e1, e2, e3, e4, e5, e6, e7, e8, e9, e10,
        e11, e12, h2]
  | true =>
    have h3b : ¬(text = "📊 View All Items" ∨ text = "💰 Update Price" ∨
        text = "🆕 Add New Item" ∨ text = "🗑️ Remove Item" ∨
        text = "📦 View Orders" ∨ text = "📥 Download Data" ∨
        text = "🔄 Refresh Menu") := fun hm => h3 ⟨rfl, hm⟩
    simp only [not_or] at h3b
    obtain ⟨a1, a2, a3, a4, a5, a6, a7⟩ := h3b
    rcases hstep with rfl | rfl | rfl | rfl | rfl | rfl | rfl | rfl | rfl <;>
      simp [handle_message_route, e1, e2, e3, e4, e5, e6, e7, e8, e9, e10,
        e11, e12, h2, a1, a2, a3, a4, a5, a6, a7]

/-- Witness for the amended C2: a phone-number text during
`awaiting_phone` reaches the phone continuation handler. -/
theorem c2_continuation_routing_witness :
    "awaiting_phone" ∈ continuation_steps ∧
    ¬ menu_before_sessions false (grocery_categories.map Prod.fst)
        "0301-1234567" ∧
    handle_message_route false (grocery_categories.map Prod.fst)
        (some "awaiting_phone") "0301-1234567"
      = Route.continuation "awaiting_phone" :=
  ⟨by decide, by decide,
   c2_continuation_routing false (grocery_categories.map Prod.fst)
     "awaiting_phone" "0301-1234567" (by decide) (by decide)⟩

/-! ## Inline-action dispatch (claims C3, C8, C9)

State touched by the callback handlers: the catalog, the per-user carts
and sessions, and the order ledger.  Each handler returns the new state
plus the outbound messages, in send order. -/

/-- Mutable program state visible to the callback handlers. -/
structure CbState where
  catalog : Catalog
  carts : Int → Cart
  sessions : Int → Option Session
  orders : Orders

/-- Embedding of `show_admin_panel` (lines 469-487): non-admin callers get
the fixed unauthorized reply and no session change; the admin gets the
panel and a session reset to step `admin_panel`. -/
def show_admin_panel (adminId : Option String) (chat_id : Int) (s : CbState) :
    CbState × List (Int × MsgKind) :=
  if is_admin adminId chat_id = false then (s, [(chat_id, .unauthorized)])
  else
    ({ s with sessions := fun c =>
        if c = chat_id then some { step := some "admin_panel" }
        else s.sessions c },
     [(chat_id, .admin_panel_menu)])

/-- Embedding of `handle_admin_callback` (lines 408-462): gated on
`is_admin`, then dispatches the `ship_` / `cancel_` / `deliver_` /
`details_` actions. -/
def handle_admin_callback (adminId : Option String) (now : Nat)
    (chat_id : Int) (callback_data : String) (s : CbState) :
    CbState × List (Int × MsgKind) :=
  if is_admin adminId chat_id = false then (s, [(chat_id, .unauthorized)])
  else if pyStartsWith callback_data "ship_" then
    let order_id := pyDrop callback_data 5
    let r := update_order_status now s.orders order_id "Shipped"
    if r.1 then
      ({ s with orders := r.2.1 }, r.2.2 ++ [(chat_id, .shipped_ok order_id)])
    else (s, [(chat_id, .order_not_found order_id)])
  else if pyStartsWith callback_data "cancel_" then
    let order_id := pyDrop callback_data 7
    ({ s with sessions := fun c =>
        if c = chat_id then
          some { step := some "awaiting_cancel_reason",
                 order_id := some order_id }
        else s.sessions c },
     [(chat_id, .cancel_reason_prompt order_id)])
  else if pyStartsWith callback_data "deliver_" then
    let order_id := pyDrop callback_data 8
    let r := update_order_status now s.orders order_id "Delivered"
    if r.1 then
      ({ s with orders := r.2.1 },
       r.2.2 ++ [(chat_id, .delivered_ok order_id)])
    else (s, [(chat_id, .order_not_found order_id)])
  else if pyStartsWith callback_data "details_" then
    let order_id := pyDrop callback_data 8
    match List.lookup order_id s.orders with
    | some _ => (s, [(chat_id, .order_details order_id)])
    | none => (s, [(chat_id, .order_not_found order_id)])
  else (s, [])

/-- Embedding of `handle_admin_price_update` (lines 511-537): silently
ignored for non-admin callers; otherwise finds the item's category and
moves the session into step `awaiting_new_price`. -/
def handle_admin_price_update (adminId : Option String) (chat_id : Int)
    (item_name : String) (s : CbState) : CbState × List (Int × MsgKind) :=
  if is_admin adminId chat_id = false then (s, [])
  else
    match s.catalog.find? (fun c => (List.lookup item_name c.2).isSome) with
    | some c =>
        ({ s with sessions := fun ch =>
            if ch = chat_id then
              some { step := some "awaiting_new_price",
                     editing_item := some item_name,
                     item_category := some c.1 }
            else s.sessions ch },
         [(chat_id, .price_update_prompt item_name)])
    | none => (s, [(chat_id, .item_not_found_admin)])

/-- Embedding of `remove_item_from_category` (lines 603-630).  NOTE: the
source performs no `is_admin` check here; the deletion happens for any
caller, and only the closing `show_admin_panel` call is gated. -/
def remove_item_from_category (adminId : Option String) (chat_id : Int)
    (item_name : String) (s : CbState) : CbState × List (Int × MsgKind) :=
  match s.catalog.find? (fun c => (List.lookup item_name c.2).isSome) with
  | some c =>
      let catalog2 := s.catalog.map (fun p =>
        if p.1 = c.1 then (p.1, p.2.filter (fun q => q.1 != item_name))
        else p)
      let r := show_admin_panel adminId chat_id { s with catalog := catalog2 }
      (r.1, (chat_id, .item_removed item_name c.1) :: r.2)
  | none => (s, [(chat_id, .item_not_found_admin)])

/-- Embedding of `show_remove_items_from_category` (lines 579-601):
read-only listing of removable items. -/
def show_remove_items_from_category (chat_id : Int) (category : String)
    (s : CbState) : CbState × List (Int × MsgKind) :=
  match List.lookup category s.catalog with
  | none => (s, [(chat_id, .category_not_found)])
  | some items =>
      if items.isEmpty then (s, [(chat_id, .no_items_in_category category)])
      else (s, [(chat_id, .remove_item_list category)])

/-- Embedding of `handle_download_request` (lines 1072-1106): silently
ignored for non-admin callers; otherwise sends the requested CSV files. -/
def handle_download_request (adminId : Option String) (chat_id : Int)
    (callback_data : String) (s : CbState) : CbState × List (Int × MsgKind) :=
  if is_admin adminId chat_id = false then (s, [])
  else if callback_data = "download_orders" then
    (s, [(chat_id, .download_doc "orders")])
  else if callback_data = "download_prices" then
    (s, [(chat_id, .download_doc "prices")])
  else if callback_data = "download_both" then
    (s, [(chat_id, .download_doc "orders"), (chat_id, .download_doc "prices")])
  else (s, [])

/-- Side-effecting wrapper of `handle_add_to_cart` (lines 901-931) as seen
from the callback dispatcher: mutates the caller's cart. -/
def handle_add_to_cart_cb (chat_id : Int) (item_name : String) (s : CbState) :
    CbState × List (Int × MsgKind) :=
  match find_item s.catalog item_name with
  | none => (s, [(chat_id, .item_not_found_menu)])
  | some _ =>
      ({ s with carts := fun c =>
          if c = chat_id then handle_add_to_cart s.catalog (s.carts c) item_name
          else s.carts c },
       [(chat_id, .added_to_cart item_name)])

/-- Embedding of `handle_callback_query` (lines 1017-1070): the inline
action dispatcher, prefix checks in source order.  NOTE: the
`newitem_cat_` branch mutates the caller's session without any
`is_admin` check. -/
def handle_callback_query (adminId : Option String) (now : Nat)
    (chat_id : Int) (callback_data : String) (s : CbState) :
    CbState × List (Int × MsgKind) :=
  if pyStartsWith callback_data "add_" then
    handle_add_to_cart_cb chat_id (pyDrop callback_data 4) s
  else if callback_data = "back_categories" then
    (s, [(chat_id, .back_categories)])
  else if callback_data = "view_cart" then (s, [(chat_id, .view_cart)])
  else if pyStartsWith callback_data "ship_"
      || pyStartsWith callback_data "cancel_"
      || pyStartsWith callback_data "deliver_"
      || pyStartsWith callback_data "details_" then
    handle_admin_callback adminId now chat_id callback_data s
  else if pyStartsWith callback_data "update_price_" then
    handle_admin_price_update adminId chat_id (pyDrop callback_data 13) s
  else if pyStartsWith callback_data "newitem_cat_" then
    let category := pyDrop callback_data 12
    let old := (s.sessions chat_id).getD {}
    ({ s with sessions := fun c =>
        if c = chat_id then
          some { old with
                 step := some "awaiting_new_item_name",
                 new_item_category := some category }
        else s.sessions c },
     [(chat_id, .new_item_name_prompt category)])
  else if pyStartsWith callback_data "remove_cat_" then
    show_remove_items_from_category chat_id (pyDrop callback_data 11) s
  else if pyStartsWith callback_data "remove_item_" then
    remove_item_from_category adminId chat_id (pyDrop callback_data 12) s
  else if callback_data = "admin_back" ∨ callback_data = "admin_cancel" then
    show_admin_panel adminId chat_id s
  else if pyStartsWith callback_data "download_" then
    handle_download_request adminId chat_id callback_data s
  else (s, [(chat_id, .unknown_action)])

/-! ## Price parsing (claim C8)

Model of Python `float(text)` restricted to plain decimal literals
(optional sign, integer digits, optional fractional digits); exponents,
`inf`/`nan`, underscores and surrounding whitespace are outside the inputs
the claims exercise. -/

/-- Decimal digit value of a character. -/
def digit? (c : Char) : Option Nat :=
  if '0' ≤ c ∧ c ≤ '9' then some (c.toNat - 48) else none

/-- Value of a digit run; `none` when any character is not a digit.
The empty run maps to `some 0`, callers guard emptiness. -/
def digits_val? (cs : List Char) : Option Nat :=
  cs.foldl (fun acc c =>
    match acc, digit? c with
    | some a, some d => some (10 * a + d)
    | _, _ => none) (some 0)

/-- Model of `float(text)` on plain decimal literals, `none` when Python
would raise ValueError. -/
def pyFloat? (s : String) : Option ℚ :=
  let cs := s.data
  let sgn : ℚ := match cs with | '-' :: _ => -1 | _ => 1
  let body := match cs with | '-' :: r => r | '+' :: r => r | r => r
  let ip := body.takeWhile (fun c => c != '.')
  let rest := body.dropWhile (fun c => c != '.')
  match rest with
  | [] =>
      if ip.isEmpty then none
      else (digits_val? ip).map (fun n => sgn * (n : ℚ))
  | _ :: frac =>
      if ip.isEmpty && frac.isEmpty then none
      else
        match digits_val? ip, digits_val? frac with
        | some i, some f =>
            some (sgn * ((i : ℚ) + (f : ℚ) / ((10 : ℚ) ^ frac.length)))
        | _, _ => none

/-- Embedding of the `awaiting_new_item_price` branch of `handle_message`
(lines 1267-1298): `float(text)` failing gives a re-prompt and no state
change; on success the session advances to `awaiting_new_item_unit`
carrying the parsed price, provided the name and category collected by the
earlier steps are present (otherwise: session-expired message and return
to the admin panel). -/
def handle_new_item_price_step (adminId : Option String) (chat_id : Int)
    (text : String) (s : CbState) : CbState × List (Int × MsgKind) :=
  match pyFloat? text with
  | none => (s, [(chat_id, .invalid_price_number)])
  | some item_price =>
      let session_data := (s.sessions chat_id).getD {}
      match session_data.new_item_name, session_data.new_item_category with
      | some item_name, some category =>
          ({ s with sessions := fun c =>
              if c = chat_id then
                some { session_data with
                       step := some "awaiting_new_item_unit",
                       new_item_name := some item_name,
                       new_item_price := some item_price,
                       new_item_category := some category }
              else s.sessions c },
           [(chat_id, .unit_prompt item_name)])
      | _, _ =>
          let r := show_admin_panel adminId chat_id s
          (r.1, (chat_id, .session_expired) :: r.2)

/-- A state with the default catalog, no carts, no sessions, no orders. -/
def demo_cb_state : CbState :=
  { catalog := grocery_categories
    carts := fun _ => []
    sessions := fun _ => none
    orders := [] }

/-- Session of a user mid-way through the admin add-item flow, waiting for
the price of the new item. -/
def c8_demo_session : Session :=
  { step := some "awaiting_new_item_price",
    new_item_name := some "Mangoes",
    new_item_category := some "🥦 Fresh Produce" }

/-- A state in which chat 1 holds `c8_demo_session`. -/
def c8_demo_state : CbState :=
  { demo_cb_state with
    sessions := fun c => if c = 1 then some c8_demo_session else none }

/-! ## Claim C3 -/

/-- C3 counterexample: a caller who is not the configured admin (identity
999, caller chat id 1) invokes the `remove_item_` inline action and the
item IS deleted from the catalog — `remove_item_from_category` performs no
admin check; the unauthorized reply is only emitted afterwards by the
gated `show_admin_panel` call, after the mutation already happened. -/
theorem c3_nonadmin_remove_counterexample :
    is_admin (some "999") 1 = false ∧
    (find_item demo_cb_state.catalog "🍎 Apples").isSome = true ∧
    (find_item
        (handle_callback_query (some "999") 0 1 "remove_item_🍎 Apples"
          demo_cb_state).1.catalog "🍎 Apples").isSome = false ∧
    (handle_callback_query (some "999") 0 1 "remove_item_🍎 Apples"
        demo_cb_state).2
      = [(1, MsgKind.item_removed "🍎 Apples" "🥦 Fresh Produce"),
         (1, MsgKind.unauthorized)] :=
  ⟨rfl, rfl, rfl, rfl⟩

/-- C3 amended: for a caller whose identity differs from the configured
administrator identity, the order-status actions (`ship_`, `cancel_`,
`deliver_`, `details_`) produce the fixed unauthorized reply and leave the
state unchanged, while `update_price_` and `download_` actions are
silently ignored with no state change; the `remove_item_` and
`newitem_cat_` actions, however, are NOT admin-gated (see the
counterexample). -/
theorem c3_nonadmin_callback_gating (adminId : Option String) (now : Nat)
    (chat_id : Int) (suffix : String) (s : CbState)
    (h : is_admin adminId chat_id = false) :
    handle_callback_query adminId now chat_id ("ship_" ++ suffix) s
      = (s, [(chat_id, MsgKind.unauthorized)]) ∧
    handle_callback_query adminId now chat_id ("cancel_" ++ suffix) s
      = (s, [(chat_id, MsgKind.unauthorized)]) ∧
    handle_callback_query adminId now chat_id ("deliver_" ++ suffix) s
      = (s, [(chat_id, MsgKind.unauthorized)]) ∧
    handle_callback_query adminId now chat_id ("details_" ++ suffix) s
      = (s, [(chat_id, MsgKind.unauthorized)]) ∧
    handle_callback_query adminId now chat_id ("update_price_" ++ suffix) s
      = (s, []) ∧
    handle_callback_query adminId now chat_id ("download_" ++ suffix) s
      = (s, []) := by
  refine ⟨?_, ?_, ?_, ?_, ?_, ?_⟩ <;>
    simp [handle_callback_query, pyStartsWith, String.data_append, listIsPre,
      String.ext_iff, handle_admin_callback, handle_admin_price_update,
      handle_download_request, h]

/-- Witness for the amended C3: chat 1 against configured admin 999. -/
theorem c3_nonadmin_callback_gating_witness :
    is_admin (some "999") 1 = false ∧
    handle_callback_query (some "999") 0 1 ("ship_" ++ "ORD1700000000")
        demo_cb_state
      = (demo_cb_state, [(1, MsgKind.unauthorized)]) :=
  ⟨rfl,
   (c3_nonadmin_callback_gating (some "999") 0 1 "ORD1700000000"
      demo_cb_state rfl).1⟩

/-! ## Claim C9 -/

/-- C9: `is_admin` succeeds exactly when an administrator identity is
configured, non-empty, and equal to the decimal string form of the chat
id; in particular with no configured identity every caller fails the
check, so each admin-gated handler treats every caller as unauthorized
(the gated callback handlers reply unauthorized or silently refuse). -/
theorem c9_is_admin_spec (adminId : Option String) (chat_id : Int) :
    (is_admin adminId chat_id = true ↔
      ∃ a, adminId = some a ∧ a ≠ "" ∧ toString chat_id = a) ∧
    is_admin none chat_id = false ∧
    (∀ now data s, handle_admin_callback none now chat_id data s
        = (s, [(chat_id, MsgKind.unauthorized)])) ∧
    (∀ s, show_admin_panel none chat_id s
        = (s, [(chat_id, MsgKind.unauthorized)])) ∧
    (∀ item s, handle_admin_price_update none chat_id item s = (s, [])) ∧
    (∀ data s, handle_download_request none chat_id data s = (s, [])) := by
  refine ⟨?_, rfl, fun now data s => rfl, fun s => rfl, fun item s => rfl,
    fun data s => rfl⟩
  cases adminId with
  | none => simp [is_admin]
  | some a =>
    by_cases ha : a = ""
    · subst ha
      simp [is_admin]
    · simp [is_admin, ha]

/-! ## Claim C8 -/

/-- C8 counterexample: in step `awaiting_new_item_price` the input `-5`
parses under `float(...)`, so the handler accepts it and advances the
session to `awaiting_new_item_unit` carrying the price -5, although -5 is
not a positive number; the source never checks positivity. -/
theorem c8_negative_price_counterexample :
    pyFloat? "-5" = some (-5) ∧
    ¬ ((0 : ℚ) < -5) ∧
    ((handle_new_item_price_step (some "999") 1 "-5" c8_demo_state).1.sessions
        1).bind Session.step = some "awaiting_new_item_unit" ∧
    ((handle_new_item_price_step (some "999") 1 "-5" c8_demo_state).1.sessions
        1).bind Session.new_item_price = some (-5) := by
  have hparse : pyFloat? "-5" = some (-5) := by
    simp [pyFloat?, digits_val?, digit?]
  refine ⟨hparse, by norm_num, ?_, ?_⟩
  · simp [handle_new_item_price_step, hparse, c8_demo_state, demo_cb_state,
      c8_demo_session]
  · simp [handle_new_item_price_step, hparse, c8_demo_state, demo_cb_state,
      c8_demo_session]

/-- C8 amended: an `awaiting_new_item_price` input on which `float(...)`
fails is rejected with a re-prompt, with no state change at all (hence no
catalog mutation and no advance); an input parsing as any number —
positive or not — advances the session to `awaiting_new_item_unit`
carrying the parsed price, provided the collected item name and category
are present in the session. -/
theorem c8_price_parse_gate (adminId : Option String) (chat_id : Int)
    (text : String) (s : CbState) :
    (pyFloat? text = none →
        handle_new_item_price_step adminId chat_id text s
          = (s, [(chat_id, MsgKind.invalid_price_number)])) ∧
    (∀ p sess item_name category,
        s.sessions chat_id = some sess →
        sess.new_item_name = some item_name →
        sess.new_item_category = some category →
        pyFloat? text = some p →
        (handle_new_item_price_step adminId chat_id text s).1.catalog
            = s.catalog ∧
        (handle_new_item_price_step adminId chat_id text s).1.sessions chat_id
            = some { sess with
                     step := some "awaiting_new_item_unit",
                     new_item_name := some item_name,
                     new_item_price := some p,
                     new_item_category := some category } ∧
        (handle_new_item_price_step adminId chat_id text s).2
            = [(chat_id, MsgKind.unit_prompt item_name)]) := by
  refine ⟨fun h => by simp [handle_new_item_price_step, h], ?_⟩
  intro p sess item_name category hs hn hc hp
  refine ⟨?_, ?_, ?_⟩ <;>
    simp [handle_new_item_price_step, hp, hs, hn, hc]

/-- Witness for the amended C8: the non-numeric input abc is re-prompted
with no state change. -/
theorem c8_price_parse_gate_witness :
    pyFloat? "abc" = none ∧
    handle_new_item_price_step (some "999") 1 "abc" c8_demo_state
      = (c8_demo_state, [(1, MsgKind.invalid_price_number)]) :=
  ⟨rfl, (c8_price_parse_gate (some "999") 1 "abc" c8_demo_state).1 rfl⟩

/-! ## Cart snapshots and aliasing (claim C5)

`save_order_tracking` stores `cart.copy()` — a SHALLOW copy: the outer
dict is copied, the per-line dicts are shared by reference.  To decide
whether later cart mutations can reach a stored snapshot, Python's
reference semantics is made explicit: cart-line dicts live on a heap
addressed by allocation order, a cart maps item names to heap addresses,
and an order snapshot stores the address list copied from the cart at
creation time.  `handle_add_to_cart` either mutates a shared heap cell
in place (`+= 1`) or allocates a fresh cell; `process_cash_on_delivery`
snapshots the cart and then clears it (`user_carts[chat_id] = {}`
rebinds, so the address list of the live cart is emptied).  Admin catalog
mutations are over-approximated by an arbitrary catalog replacement; they
never touch the heap. -/

/-- One `order_tracking` entry under the heap model: the snapshot `cart`
holds the heap addresses shared with the live cart at creation time. -/
structure HOrder where
  chat_id : Int
  customer_name : String
  phone : String
  address : String
  cart : List (String × Nat)
  total : ℚ
  status : String
  created_at : Nat
  updated_at : Nat

/-- Program state under the heap model. -/
structure HState where
  catalog : Catalog
  heap : Nat → Option CartLine
  carts : Int → List (String × Nat)
  orders : String → Option HOrder
  next_addr : Nat

/-- The cart mutations named by the claim: adding an item (which covers
both quantity increment and new-line insertion) and clearing the cart. -/
inductive CartOp
  | add_to_cart (chat : Int) (item_name : String)
  | clear_cart (chat : Int)

/-- All state-changing operations of the program relevant to the heap
model. -/
inductive HOp
  | cart (op : CartOp)
  | checkout (chat : Int) (order_id customer_name phone address : String)
      (now : Nat)
  | catalog_set (c : Catalog)
  | set_status (order_id new_status : String) (now : Nat)

/-- Observation of a snapshot or cart: each line name with the current
contents of its heap cell. -/
def obs_cart (heap : Nat → Option CartLine)
    (cart : List (String × Nat)) : List (String × Option CartLine) :=
  cart.map (fun p => (p.1, heap p.2))

/-- Observed subtotal of a snapshot or cart. -/
def obs_subtotal (heap : Nat → Option CartLine)
    (cart : List (String × Nat)) : ℚ :=
  (cart.map (fun p =>
    match heap p.2 with
    | some l => l.price * (l.quantity : ℚ)
    | none => 0)).sum

/-- Observed total (subtotal plus delivery fee) of a snapshot or cart. -/
def obs_total (heap : Nat → Option CartLine)
    (cart : List (String × Nat)) : ℚ :=
  obs_subtotal heap cart
    + (if obs_subtotal heap cart ≥ 50 then 0 else 5)

/-- Transition function of the heap model.  `add_to_cart` mirrors
`handle_add_to_cart` (lines 901-922): looking up the item, then either
mutating the shared line dict in place or allocating a fresh one;
`clear_cart` mirrors `user_carts[chat_id] = {}` (lines 1155-1157);
`checkout` mirrors the tail of `process_cash_on_delivery`
(lines 796-831): snapshot via `cart.copy()` (same addresses), ledger
insert, then cart clear; `catalog_set` over-approximates every admin
catalog mutation; `set_status` mirrors `update_order_status`. -/
def heap_step : HOp → HState → HState
  | .cart (.add_to_cart chat item_name), s =>
    match find_item s.catalog item_name with
    | none => s
    | some item_details =>
      match List.lookup item_name (s.carts chat) with
      | some a =>
          { s with heap := fun x =>
              if x = a then
                match s.heap a with
                | some line => some { line with quantity := line.quantity + 1 }
                | none => none
              else s.heap x }
      | none =>
          { s with
            heap := fun x =>
              if x = s.next_addr then
                some ⟨item_details.price, item_details.unit, 1⟩
              else s.heap x
            carts := fun c =>
              if c = chat then s.carts chat ++ [(item_name, s.next_addr)]
              else s.carts c
            next_addr := s.next_addr + 1 }
  | .cart (.clear_cart chat), s =>
      { s with carts := fun c => if c = chat then [] else s.carts c }
  | .checkout chat order_id customer_name phone address now, s =>
      { s with
        orders := fun i =>
          if i = order_id then
            some { chat_id := chat
                   customer_name := customer_name
                   phone := phone
                   address := address
                   cart := s.carts chat
                   total := obs_total s.heap (s.carts chat)
                   status := "Pending"
                   created_at := now
                   updated_at := now }
          else s.orders i
        carts := fun c => if c = chat then [] else s.carts c }
  | .catalog_set c, s => { s with catalog := c }
  | .set_status order_id new_status now, s =>
      match s.orders order_id with
      | none => s
      | some o =>
          { s with orders := fun i =>
              if i = order_id then
                some { o with status := new_status, updated_at := now }
              else s.orders i }

/-- The initial program state: default catalog, empty heap, no carts, no
orders. -/
def heap_init : HState :=
  { catalog := grocery_categories
    heap := fun _ => none
    carts := fun _ => []
    orders := fun _ => none
    next_addr := 0 }

/-- States reachable from startup by program operations. -/
inductive Reachable : HState → Prop
  | init : Reachable heap_init
  | step (op : HOp) {s : HState} : Reachable s → Reachable (heap_step op s)

/-- Allocation and ownership invariant: every address in use is below the
allocation counter, snapshot addresses are disjoint from every live
cart's addresses, and distinct users' carts are address-disjoint. -/
structure HInv (s : HState) : Prop where
  carts_lt : ∀ chat n a, (n, a) ∈ s.carts chat → a < s.next_addr
  orders_lt : ∀ oid o, s.orders oid = some o →
      ∀ n a, (n, a) ∈ o.cart → a < s.next_addr
  orders_carts_disjoint : ∀ oid o, s.orders oid = some o →
      ∀ n a, (n, a) ∈ o.cart →
      ∀ chat m b, (m, b) ∈ s.carts chat → a ≠ b
  carts_pairwise : ∀ c1 c2, c1 ≠ c2 →
      ∀ n a, (n, a) ∈ s.carts c1 → ∀ m b, (m, b) ∈ s.carts c2 → a ≠ b

theorem lookup_mem {α β : Type} [BEq α] [LawfulBEq α] {l : List (α × β)}
    {k : α} {v : β} (h : List.lookup k l = some v) : (k, v) ∈ l := by
  induction l with
  | nil => simp [List.lookup] at h
  | cons hd tl ih =>
    obtain ⟨a, b⟩ := hd
    by_cases hk : (k == a) = true
    · obtain rfl : k = a := eq_of_beq hk
      simp only [List.lookup_cons, beq_self_eq_true] at h
      obtain rfl : b = v := Option.some.inj h
      exact List.mem_cons_self _ _
    · have hk2 : (k == a) = false := by simpa using hk
      simp only [List.lookup_cons, hk2] at h
      exact List.mem_cons_of_mem _ (ih h)

theorem hinv_preserved (op : HOp) {s : HState} (inv : HInv s) :
    HInv (heap_step op s) := by
  cases op with
  | cart cop =>
    cases cop with
    | add_to_cart chat item_name =>
      rcases hfi : find_item s.catalog item_name with _ | item_details
      · simpa [heap_step, hfi] using inv
      · rcases hlk : List.lookup item_name (s.carts chat) with _ | a
        · have hstep : heap_step (.cart (.add_to_cart chat item_name)) s =
              { s with
                heap := fun x =>
                  if x = s.next_addr then
                    some ⟨item_details.price, item_details.unit, 1⟩
                  else s.heap x
                carts := fun c =>
                  if c = chat then s.carts chat ++ [(item_name, s.next_addr)]
                  else s.carts c
                next_addr := s.next_addr + 1 } := by
            simp [heap_step, hfi, hlk]
          rw [hstep]
          refine ⟨?_, ?_, ?_, ?_⟩
          · intro chat2 n b hb
            dsimp only at hb ⊢
            by_cases hc : chat2 = chat
            · rw [if_pos hc] at hb
              rcases List.mem_append.mp hb with h1 | h1
              · exact Nat.lt_succ_of_lt (inv.carts_lt chat n b h1)
              · simp only [List.mem_singleton, Prod.mk.injEq] at h1
                obtain ⟨-, rfl⟩ := h1
                exact Nat.lt_succ_self _
            · rw [if_neg hc] at hb
              exact Nat.lt_succ_of_lt (inv.carts_lt chat2 n b hb)
          · intro oid o ho n b hb
            dsimp only at ho ⊢
            exact Nat.lt_succ_of_lt (inv.orders_lt oid o ho n b hb)
          · intro oid o ho n a2 ha chat2 m b hb
            dsimp only at ho hb
            by_cases hc : chat2 = chat
            · rw [if_pos hc] at hb
              rcases List.mem_append.mp hb with h1 | h1
              · exact inv.orders_carts_disjoint oid o ho n a2 ha chat m b h1
              · simp only [List.mem_singleton, Prod.mk.injEq] at h1
                obtain ⟨-, rfl⟩ := h1
                exact Nat.ne_of_lt (inv.orders_lt oid o ho n a2 ha)
            · rw [if_neg hc] at hb
              exact inv.orders_carts_disjoint oid o ho n a2 ha chat2 m b hb
          · intro c1 c2 hne n a2 ha m b hb
            dsimp only at ha hb
            by_cases h1 : c1 = chat
            · subst h1
              rw [if_pos rfl] at ha
              have h2 : ¬ c2 = c1 := fun e => hne e.symm
              rw [if_neg h2] at hb
              rcases List.mem_append.mp ha with ha1 | ha1
              · exact inv.carts_pairwise c1 c2 hne n a2 ha1 m b hb
              · simp only [List.mem_singleton, Prod.mk.injEq] at ha1
                obtain ⟨-, rfl⟩ := ha1
                exact (Nat.ne_of_lt (inv.carts_lt c2 m b hb)).symm
            · rw [if_neg h1] at ha
              by_cases h2 : c2 = chat
              · subst h2
                rw [if_pos rfl] at hb
                rcases List.mem_append.mp hb with hb1 | hb1
                · exact inv.carts_pairwise c1 c2 hne n a2 ha m b hb1
                · simp only [List.mem_singleton, Prod.mk.injEq] at hb1
                  obtain ⟨-, rfl⟩ := hb1
                  exact Nat.ne_of_lt (inv.carts_lt c1 n a2 ha)
              · rw [if_neg h2] at hb
                exact inv.carts_pairwise c1 c2 hne n a2 ha m b hb
        · have hstep : heap_step (.cart (.add_to_cart chat item_name)) s =
              { s with heap := fun x =>
                  if x = a then
                    match s.heap a with
                    | some line =>
                        some { line with quantity := line.quantity + 1 }
                    | none => none
                  else s.heap x } := by
            simp [heap_step, hfi, hlk]
          rw [hstep]
          exact ⟨inv.carts_lt, inv.orders_lt, inv.orders_carts_disjoint,
            inv.carts_pairwise⟩
    | clear_cart chat =>
      have hstep : heap_step (.cart (.clear_cart chat)) s =
          { s with carts := fun c => if c = chat then [] else s.carts c } := by
        simp [heap_step]
      rw [hstep]
      refine ⟨?_, inv.orders_lt, ?_, ?_⟩
      · intro chat2 n b hb
        dsimp only at hb ⊢
        by_cases hc : chat2 = chat
        · rw [if_pos hc] at hb
          simp at hb
        · rw [if_neg hc] at hb
          exact inv.carts_lt chat2 n b hb
      · intro oid o ho n a2 ha chat2 m b hb
        dsimp only at ho hb
        by_cases hc : chat2 = chat
        · rw [if_pos hc] at hb
          simp at hb
        · rw [if_neg hc] at hb
          exact inv.orders_carts_disjoint oid o ho n a2 ha chat2 m b hb
      · intro c1 c2 hne n a2 ha m b hb
        dsimp only at ha hb
        by_cases h1 : c1 = chat
        · rw [if_pos h1] at ha
          simp at ha
        · rw [if_neg h1] at ha
          by_cases h2 : c2 = chat
          · rw [if_pos h2] at hb
            simp at hb
          · rw [if_neg h2] at hb
            exact inv.carts_pairwise c1 c2 hne n a2 ha m b hb
  | checkout chat order_id customer_name phone address now =>
    have hstep : heap_step (.checkout chat order_id customer_name phone
        address now) s =
        { s with
          orders := fun i =>
            if i = order_id then
              some { chat_id := chat
                     customer_name := customer_name
                     phone := phone
                     address := address
                     cart := s.carts chat
                     total := obs_total s.heap (s.carts chat)
                     status := "Pending"
                     created_at := now
                     updated_at := now }
            else s.orders i
          carts := fun c => if c = chat then [] else s.carts c } := by
      simp [heap_step]
    rw [hstep]
    refine ⟨?_, ?_, ?_, ?_⟩
    · intro chat2 n b hb
      dsimp only at hb ⊢
      by_cases hc : chat2 = chat
      · rw [if_pos hc] at hb
        simp at hb
      · rw [if_neg hc] at hb
        exact inv.carts_lt chat2 n b hb
    · intro oid o ho n b hb
      dsimp only at ho ⊢
      by_cases hi : oid = order_id
      · rw [if_pos hi] at ho
        obtain rfl := (Option.some.inj ho).symm
        dsimp only at hb
        exact inv.carts_lt chat n b hb
      · rw [if_neg hi] at ho
        exact inv.orders_lt oid o ho n b hb
    · intro oid o ho n a2 ha chat2 m b hb
      dsimp only at ho hb
      have hb2 : (m, b) ∈ s.carts chat2 ∧ ¬ chat2 = chat := by
        by_cases hc : chat2 = chat
        · rw [if_pos hc] at hb
          simp at hb
        · rw [if_neg hc] at hb
          exact ⟨hb, hc⟩
      by_cases hi : oid = order_id
      · rw [if_pos hi] at ho
        obtain rfl := (Option.some.inj ho).symm
        dsimp only at ha
        exact inv.carts_pairwise chat chat2 (fun e => hb2.2 e.symm) n a2 ha
          m b hb2.1
      · rw [if_neg hi] at ho
        exact inv.orders_carts_disjoint oid o ho n a2 ha chat2 m b hb2.1
    · intro c1 c2 hne n a2 ha m b hb
      dsimp only at ha hb
      by_cases h1 : c1 = chat
      · rw [if_pos h1] at ha
        simp at ha
      · rw [if_neg h1] at ha
        by_cases h2 : c2 = chat
        · rw [if_pos h2] at hb
          simp at hb
        · rw [if_neg h2] at hb
          exact inv.carts_pairwise c1 c2 hne n a2 ha m b hb
  | catalog_set c =>
    have hstep : heap_step (.catalog_set c) s = { s with catalog := c } := by
      simp [heap_step]
    rw [hstep]
    exact ⟨inv.carts_lt, inv.orders_lt, inv.orders_carts_disjoint,
      inv.carts_pairwise⟩
  | set_status order_id new_status now =>
    rcases ho : s.orders order_id with _ | o
    · simpa [heap_step, ho] using inv
    · have hstep : heap_step (.set_status order_id new_status now) s =
          { s with orders := fun i =>
              if i = order_id then
                some { o with status := new_status, updated_at := now }
              else s.orders i } := by
        simp [heap_step, ho]
      rw [hstep]
      refine ⟨inv.carts_lt, ?_, ?_, inv.carts_pairwise⟩
      · intro oid2 o2 h2 n b hb
        dsimp only at h2 ⊢
        by_cases hi : oid2 = order_id
        · rw [if_pos hi] at h2
          obtain rfl := (Option.some.inj h2).symm
          dsimp only at hb
          exact inv.orders_lt order_id o ho n b hb
        · rw [if_neg hi] at h2
          exact inv.orders_lt oid2 o2 h2 n b hb
      · intro oid2 o2 h2 n a2 ha chat2 m b hb
        dsimp only at h2 hb
        by_cases hi : oid2 = order_id
        · rw [if_pos hi] at h2
          obtain rfl := (Option.some.inj h2).symm
          dsimp only at ha
          exact inv.orders_carts_disjoint order_id o ho n a2 ha chat2 m b hb
        · rw [if_neg hi] at h2
          exact inv.orders_carts_disjoint oid2 o2 h2 n a2 ha chat2 m b hb

theorem reachable_inv {s : HState} (h : Reachable s) : HInv s := by
  induction h with
  | init =>
    refine ⟨?_, ?_, ?_, ?_⟩
    · intro chat n a ha
      simp [heap_init] at ha
    · intro oid o ho
      simp [heap_init] at ho
    · intro oid o ho
      simp [heap_init] at ho
    · intro c1 c2 hne n a ha
      simp [heap_init] at ha
  | step op hs ih => exact hinv_preserved op ih

/-- C5: in every reachable state, applying any later cart mutation
(adding an item — covering both the in-place quantity increment and the
fresh-line insertion — or clearing a cart) leaves every stored order
untouched: the ledger still maps the order id to the identical record
(hence the same stored total), and the observed contents of the order's
cart snapshot — each line's price, unit and quantity read through the
shared heap — are unchanged, as are the snapshot's observed subtotal and
total.  This holds even though `cart.copy()` is a shallow copy, because
order creation clears the live cart and fresh lines get fresh cells. -/
theorem c5_snapshot_immutable (s : HState) (hreach : Reachable s)
    (op : CartOp) (oid : String) (o : HOrder)
    (ho : s.orders oid = some o) :
    (heap_step (.cart op) s).orders oid = some o ∧
    obs_cart (heap_step (.cart op) s).heap o.cart
      = obs_cart s.heap o.cart ∧
    obs_subtotal (heap_step (.cart op) s).heap o.cart
      = obs_subtotal s.heap o.cart ∧
    obs_total (heap_step (.cart op) s).heap o.cart
      = obs_total s.heap o.cart := by
  have inv := reachable_inv hreach
  have hkey : ∀ p : String × Nat, p ∈ o.cart →
      (heap_step (.cart op) s).heap p.2 = s.heap p.2 := by
    intro p hp
    obtain ⟨n, a⟩ := p
    cases op with
    | add_to_cart chat item_name =>
      rcases hfi : find_item s.catalog item_name with _ | item_details
      · simp [heap_step, hfi]
      · rcases hlk : List.lookup item_name (s.carts chat) with _ | addr
        · have halt : a < s.next_addr := inv.orders_lt oid o ho n a hp
          simp only [heap_step, hfi, hlk]
          rw [if_neg (Nat.ne_of_lt halt)]
        · have hmem := lookup_mem hlk
          have hne := inv.orders_carts_disjoint oid o ho n a hp chat
            item_name addr hmem
          simp only [heap_step, hfi, hlk]
          rw [if_neg hne]
    | clear_cart chat =>
      simp [heap_step]
  have horders : (heap_step (.cart op) s).orders = s.orders := by
    cases op with
    | add_to_cart chat item_name =>
      rcases hfi : find_item s.catalog item_name with _ | item_details
      · simp [heap_step, hfi]
      · rcases hlk : List.lookup item_name (s.carts chat) with _ | addr <;>
          simp [heap_step, hfi, hlk]
    | clear_cart chat => simp [heap_step]
  have hobs : obs_cart (heap_step (.cart op) s).heap o.cart
      = obs_cart s.heap o.cart := by
    unfold obs_cart
    apply List.map_congr_left
    intro p hp
    rw [hkey p hp]
  have hsub : obs_subtotal (heap_step (.cart op) s).heap o.cart
      = obs_subtotal s.heap o.cart := by
    unfold obs_subtotal
    congr 1
    apply List.map_congr_left
    intro p hp
    rw [hkey p hp]
  exact ⟨by rw [horders]; exact ho, hobs, hsub,
    by unfold obs_total; rw [hsub]⟩

/-- State after the first customer added apples once. -/
def c5_demo_state1 : HState :=
  heap_step (.cart (.add_to_cart 1 "🍎 Apples")) heap_init

/-- State after that cart was checked out into order ORD1700000000. -/
def c5_demo_state2 : HState :=
  heap_step (.checkout 1 "ORD1700000000" "Alice" "111" "addr" 5)
    c5_demo_state1

/-- The order stored by the checkout in `c5_demo_state2`. -/
def c5_demo_order : HOrder :=
  { chat_id := 1
    customer_name := "Alice"
    phone := "111"
    address := "addr"
    cart := c5_demo_state1.carts 1
    total := obs_total c5_demo_state1.heap (c5_demo_state1.carts 1)
    status := "Pending"
    created_at := 5
    updated_at := 5 }

/-- Witness for C5: after an apples order is placed, adding apples again
does not change the observation of the stored snapshot. -/
theorem c5_snapshot_immutable_witness :
    c5_demo_state2.orders "ORD1700000000" = some c5_demo_order ∧
    obs_cart
        (heap_step (.cart (.add_to_cart 1 "🍎 Apples")) c5_demo_state2).heap
        c5_demo_order.cart
      = obs_cart c5_demo_state2.heap c5_demo_order.cart :=
  ⟨rfl,
   (c5_snapshot_immutable c5_demo_state2
      (Reachable.step (.checkout 1 "ORD1700000000" "Alice" "111" "addr" 5)
        (Reachable.step (.cart (.add_to_cart 1 "🍎 Apples")) Reachable.init))
      (.add_to_cart 1 "🍎 Apples") "ORD1700000000" c5_demo_order rfl).2.1⟩

end FreshMart
